import Mathlib

/-!
Verification of the VirtuGood player movement / collision / scatter-generation
core against its design specification.

The source is a TypeScript/react-three-fiber program.  We embed it shallowly:

* Machine numbers (JS doubles) are modelled as exact rationals `ℚ`.  The
  transcendental / irrational host functions (`Math.cos`, `Math.sin`,
  `Math.atan2`, `Math.sqrt`, `Math.PI`, and the three.js vector helpers
  `Vector3.normalize` and `Vector3.applyEuler`, which live in an external
  library, not in this repository) are abstracted as an `Ops` record of
  injected operations; theorems that need analytic facts about them take
  those facts as hypotheses.
* The LCG state is a natural number reduced mod 2^32, exactly as the
  source's `% 4294967296` does (the intermediate `1664525 * state +
  1013904223` stays below 2^53, so JS double arithmetic computes it
  exactly and the `ℕ` model is faithful).
* React refs become explicit state records; `useFrame` becomes the pure
  step function `tick`; the keyboard handlers become pure functions on a
  `SessionState`.
-/

namespace VirtuGood

/-- 3D vector with exact rational components (models three.js `Vector3`
and `[number, number, number]` triples). -/
structure Vec3 where
  x : ℚ
  y : ℚ
  z : ℚ
deriving DecidableEq, Repr

/-- The host-platform numeric operations the source calls but does not
define: `Math.cos`, `Math.sin`, `Math.atan2`, `Math.sqrt`, `Math.PI`, and
the three.js `Vector3.normalize` / `Vector3.applyEuler` methods.  They are
injected so the embedding stays executable; theorems assume only the
analytic facts they need about them. -/
structure Ops where
  cos : ℚ → ℚ
  sin : ℚ → ℚ
  atan2 : ℚ → ℚ → ℚ
  sqrt : ℚ → ℚ
  pi : ℚ
  normalize : Vec3 → Vec3
  applyEuler : Vec3 → Vec3 → Vec3

/-! ### Constants (Player.tsx) -/

def SPEED : ℚ := 10
def SLOW_WALK_SPEED : ℚ := 3
def JUMP_FORCE : ℚ := 8
def GRAVITY : ℚ := -20
def GROUND_HEIGHT : ℚ := 2
def DUCK_HEIGHT : ℚ := 1
def PLAYER_RADIUS : ℚ := 0.5
def FOG_START_DISTANCE : ℚ := 25
def FOG_MAX_DISTANCE : ℚ := 100
def WALL_RADIUS : ℚ := 75

/-! ### Deterministic scatter generator (scatterData.ts) -/

/-- One step of the source's linear congruential generator `createRng`:
`state = (1664525 * state + 1013904223) % 4294967296`. -/
def lcgNext (state : ℕ) : ℕ := (1664525 * state + 1013904223) % 4294967296

/-- The normalized output of the RNG closure: `state / 4294967296`. -/
def lcgOut (state : ℕ) : ℚ := (state : ℚ) / 4294967296

/-- A scattered object, as produced by `generateScatteredObjects`. -/
structure ScatteredObject where
  position : Vec3
  type : ℤ
  size : ℚ
  rotation : ℚ
  colorIndex : ℤ
  key : String
deriving DecidableEq, Repr

/-- The body of the `for` loop of `generateScatteredObjects` for index `i`,
starting from RNG state `s0`; each `rand()` call first advances the state
and then reads it out.  Returns the object together with the RNG state
after the seven draws. -/
def scatterStep (ops : Ops) (count : ℕ) (startRadius wallRadius : ℚ) (i : ℕ) (s0 : ℕ) :
    ScatteredObject × ℕ :=
  let s1 := lcgNext s0
  let angle := ((i : ℚ) / (count : ℚ)) * ops.pi * 2 + lcgOut s1 * 0.5
  let s2 := lcgNext s1
  let distance := startRadius + lcgOut s2 * (wallRadius - startRadius - 5)
  let x := ops.cos angle * distance
  let z := ops.sin angle * distance
  let s3 := lcgNext s2
  let y := lcgOut s3 * 5
  let s4 := lcgNext s3
  let ty := ⌊lcgOut s4 * 4⌋
  let s5 := lcgNext s4
  let size := 1 + lcgOut s5 * 3
  let s6 := lcgNext s5
  let rot := lcgOut s6 * ops.pi * 2
  let s7 := lcgNext s6
  let color := ⌊lcgOut s7 * 6⌋
  (⟨⟨x, y, z⟩, ty, size, rot, color, "obj-" ++ toString i⟩, s7)

/-- The loop of `generateScatteredObjects`: `fuel` remaining iterations,
current index `i`, current RNG state `s`. -/
def scatterAux (ops : Ops) (count : ℕ) (startRadius wallRadius : ℚ) :
    ℕ → ℕ → ℕ → List ScatteredObject
  | 0, _, _ => []
  | fuel + 1, i, s =>
    let p := scatterStep ops count startRadius wallRadius i s
    p.1 :: scatterAux ops count startRadius wallRadius fuel (i + 1) p.2

/-- `generateScatteredObjects(count, startRadius, wallRadius)`: runs the
loop for `i ∈ [0, count)` with the RNG freshly seeded at `12345`. -/
def generateScatteredObjects (ops : Ops) (count : ℕ) (startRadius wallRadius : ℚ) :
    List ScatteredObject :=
  scatterAux ops count startRadius wallRadius count 0 12345

/-! ### Spec-side model of the scatter algorithm (spec §4.1)

Written from the specification's words, to be compared with the source
translation above: a single pseudo-random stream
`state ↦ (1664525 * state + 1013904223) mod 2^32` with fixed initial seed,
normalized output `state / 2^32`, consumed in the fixed per-object order
angle-jitter, distance, Y, type, size, rotation, color. -/

/-- Spec model: the stream state after `n` draws from the given seed. -/
def specStreamState (seed : ℕ) : ℕ → ℕ
  | 0 => seed
  | n + 1 => (1664525 * specStreamState seed n + 1013904223) % 2 ^ 32

/-- Spec model: the `n`-th normalized output of the stream (0-indexed). -/
def specRand (seed n : ℕ) : ℚ := (specStreamState seed (n + 1) : ℚ) / 2 ^ 32

/-- Spec model: object `i`, whose seven draws are stream outputs
`7*i` through `7*i + 6`, consumed in the order angle-jitter, distance, Y,
type, size, rotation, color. -/
def specObject (ops : Ops) (count : ℕ) (startRadius wallRadius : ℚ) (i : ℕ) :
    ScatteredObject :=
  let r : ℕ → ℚ := fun j => specRand 12345 (7 * i + j)
  let angle := ((i : ℚ) / (count : ℚ)) * ops.pi * 2 + r 0 * 0.5
  let distance := startRadius + r 1 * (wallRadius - startRadius - 5)
  { position := ⟨ops.cos angle * distance, r 2 * 5, ops.sin angle * distance⟩
    type := ⌊r 3 * 4⌋
    size := 1 + r 4 * 3
    rotation := r 5 * ops.pi * 2
    colorIndex := ⌊r 6 * 6⌋
    key := "obj-" ++ toString i }

/-- Spec model: the full generated sequence. -/
def specGenerate (ops : Ops) (count : ℕ) (startRadius wallRadius : ℚ) :
    List ScatteredObject :=
  (List.range count).map (specObject ops count startRadius wallRadius)

/-! ### Collision index builder (Player.tsx, `generateCollisionBounds`) -/

/-- The discriminator of `CollisionBounds.type` : `"box" | "sphere" | "cylinder"`. -/
inductive ShapeKind where
  | box
  | sphere
  | cylinder
deriving DecidableEq, Repr

/-- A collision shape: world-space center plus a size vector whose
meaning depends on the kind (box: full extents; sphere: radius in `x`;
cylinder: radius in `x`, height in `y`). -/
structure CollisionBounds where
  type : ShapeKind
  position : Vec3
  size : Vec3
deriving DecidableEq, Repr

/-- The six hardcoded column positions. -/
def columnPositions : List Vec3 :=
  [⟨-8, 0, -5⟩, ⟨-8, 0, 5⟩, ⟨-8, 0, 15⟩, ⟨8, 0, -5⟩, ⟨8, 0, 5⟩, ⟨8, 0, 15⟩]

/-- The three shapes pushed for one column: base box, shaft cylinder,
capital box. -/
def columnShapes (p : Vec3) : List CollisionBounds :=
  [⟨.box, ⟨p.x, p.y + 0.5, p.z⟩, ⟨2, 1, 2⟩⟩,
   ⟨.cylinder, ⟨p.x, p.y + 6, p.z⟩, ⟨0.8, 10, 0⟩⟩,
   ⟨.box, ⟨p.x, p.y + 11.5, p.z⟩, ⟨1.8, 1, 1.8⟩⟩]

/-- The statue base position `[30, 0, -30]`. -/
def giantPos : Vec3 := ⟨30, 0, -30⟩

/-- The four shapes pushed for the statue: torso cylinder, head sphere,
left and right arm cylinders. -/
def giantShapes : List CollisionBounds :=
  [⟨.cylinder, ⟨giantPos.x, giantPos.y + 12, giantPos.z⟩, ⟨4, 12, 0⟩⟩,
   ⟨.sphere, ⟨giantPos.x, giantPos.y + 20, giantPos.z⟩, ⟨3, 0, 0⟩⟩,
   ⟨.cylinder, ⟨giantPos.x - 5, giantPos.y + 12, giantPos.z + 2⟩, ⟨1, 10, 0⟩⟩,
   ⟨.cylinder, ⟨giantPos.x + 5, giantPos.y + 12, giantPos.z + 2⟩, ⟨1, 10, 0⟩⟩]

/-- The shapes pushed for one scattered object (zero or one, depending on
its `type` discriminator). -/
def scatterShapes (o : ScatteredObject) : List CollisionBounds :=
  if o.type = 0 then
    [⟨.box, ⟨o.position.x, o.position.y + o.size * 1.5 / 2, o.position.z⟩,
      ⟨o.size, o.size * 1.5, o.size⟩⟩]
  else if o.type = 1 then
    [⟨.cylinder, ⟨o.position.x, o.position.y + o.size, o.position.z⟩,
      ⟨o.size * 0.5, o.size * 2, 0⟩⟩]
  else if o.type = 2 then
    [⟨.sphere, ⟨o.position.x, o.position.y, o.position.z⟩, ⟨o.size * 0.7, 0, 0⟩⟩]
  else if o.type = 3 then
    [⟨.cylinder, ⟨o.position.x, o.position.y + o.size, o.position.z⟩,
      ⟨o.size * 0.7, o.size * 2, 0⟩⟩]
  else []

/-- `generateCollisionBounds(scatteredObjects)`: 6 columns of 3 shapes
each, then the 4 statue shapes, then the per-object shapes, in push order. -/
def generateCollisionBounds (scatteredObjects : List ScatteredObject) : List CollisionBounds :=
  (columnPositions.flatMap columnShapes) ++ giantShapes ++
    scatteredObjects.flatMap scatterShapes

/-! ### Collision test (Player.tsx, `checkCollision`) -/

/-- Whether one collision shape reports a hit against the player sphere
at `pos`, with the player's vertical interval `[playerBottom, playerTop]`.
Direct translation of the loop body of `checkCollision`. -/
def boundHits (ops : Ops) (pos : Vec3) (playerBottom playerTop : ℚ)
    (bound : CollisionBounds) : Bool :=
  match bound.type with
  | .box =>
    let minX := bound.position.x - bound.size.x / 2
    let maxX := bound.position.x + bound.size.x / 2
    let minY := bound.position.y - bound.size.y / 2
    let maxY := bound.position.y + bound.size.y / 2
    let minZ := bound.position.z - bound.size.z / 2
    let maxZ := bound.position.z + bound.size.z / 2
    let closestX := max minX (min pos.x maxX)
    let closestY := max minY (min pos.y maxY)
    let closestZ := max minZ (min pos.z maxZ)
    let distX := pos.x - closestX
    let distY := pos.y - closestY
    let distZ := pos.z - closestZ
    let distSq := distX * distX + distY * distY + distZ * distZ
    decide (distSq < PLAYER_RADIUS * PLAYER_RADIUS)
  | .sphere =>
    let dist := ops.sqrt ((pos.x - bound.position.x) * (pos.x - bound.position.x) +
      (pos.y - bound.position.y) * (pos.y - bound.position.y) +
      (pos.z - bound.position.z) * (pos.z - bound.position.z))
    decide (dist < PLAYER_RADIUS + bound.size.x) &&
      (decide (playerBottom < bound.position.y + bound.size.x) &&
       decide (playerTop > bound.position.y - bound.size.x))
  | .cylinder =>
    let dx := pos.x - bound.position.x
    let dz := pos.z - bound.position.z
    let horizontalDist := ops.sqrt (dx * dx + dz * dz)
    let cylBottom := bound.position.y - bound.size.y / 2
    let cylTop := bound.position.y + bound.size.y / 2
    decide (horizontalDist < PLAYER_RADIUS + bound.size.x) &&
      (decide (playerBottom < cylTop) && decide (playerTop > cylBottom))

/-- `checkCollision(pos, playerHeight)`: true iff any shape of the static
collision index reports a hit (the source's early-`return true` loop is a
short-circuit OR over the list). -/
def checkCollision (ops : Ops) (bounds : List CollisionBounds) (pos : Vec3)
    (playerHeight : ℚ) : Bool :=
  let playerBottom := pos.y - playerHeight / 2
  let playerTop := pos.y + playerHeight / 2
  bounds.any (boundHits ops pos playerBottom playerTop)

/-! ### Input state and keyboard handlers (Player.tsx) -/

/-- The `MoveState` record of input flags. -/
structure MoveState where
  forward : Bool
  backward : Bool
  left : Bool
  right : Bool
  jump : Bool
  duck : Bool
  slowWalk : Bool
deriving DecidableEq, Repr

/-- A keyboard event as seen by the handlers: `e.code` plus the modifier
flags the handlers consult. -/
structure KeyEvent where
  code : String
  ctrlKey : Bool
  shiftKey : Bool
deriving DecidableEq, Repr

/-- The movement-flag names the `KEYS` table can map a code to. -/
inductive MoveKey where
  | forward
  | backward
  | left
  | right
  | jump
deriving DecidableEq, Repr

/-- The `KEYS` code table. -/
def KEYS : String → Option MoveKey
  | "KeyW" => some .forward
  | "KeyS" => some .backward
  | "KeyA" => some .left
  | "KeyD" => some .right
  | "Space" => some .jump
  | "ArrowUp" => some .forward
  | "ArrowDown" => some .backward
  | "ArrowLeft" => some .left
  | "ArrowRight" => some .right
  | _ => none

/-- Writing one movement flag of a `MoveState` (the source's
`moveState.current[KEYS[key]] = b`). -/
def setMoveFlag (mv : MoveState) (k : MoveKey) (b : Bool) : MoveState :=
  match k with
  | .forward => { mv with forward := b }
  | .backward => { mv with backward := b }
  | .left => { mv with left := b }
  | .right => { mv with right := b }
  | .jump => { mv with jump := b }

/-- The mutable state the keyboard handlers and the lock flag touch:
`isLocked` (React prop), the `moveState` ref, and the `velocityY` /
`isGrounded` refs. -/
structure SessionState where
  isLocked : Bool
  move : MoveState
  velocityY : ℚ
  isGrounded : Bool
deriving DecidableEq, Repr

/-- `handleKeyDown`: ignored entirely while not locked; sets duck/slow-walk
on the modifier flags; `Space` runs the jump gate (grounded and vertical
velocity exactly 0) instead of writing a movement flag. -/
def handleKeyDown (s : SessionState) (e : KeyEvent) : SessionState :=
  if !s.isLocked then s
  else
    let mv := s.move
    let mv := if e.ctrlKey || e.code = "ControlLeft" || e.code = "ControlRight" then
        { mv with duck := true } else mv
    let mv := if e.shiftKey || e.code = "ShiftLeft" || e.code = "ShiftRight" then
        { mv with slowWalk := true } else mv
    match KEYS e.code with
    | some .jump =>
      if s.isGrounded ∧ s.velocityY = 0 then
        { s with move := mv, velocityY := JUMP_FORCE, isGrounded := false }
      else
        { s with move := mv }
    | some k => { s with move := setMoveFlag mv k true }
    | none => { s with move := mv }

/-- `handleKeyUp`: not gated on the lock; clears duck/slow-walk on modifier
release (and whenever the event reports the modifier no longer held), and
clears the movement flag for non-`Space` mapped keys. -/
def handleKeyUp (s : SessionState) (e : KeyEvent) : SessionState :=
  let mv := s.move
  let mv := if e.code = "ControlLeft" || e.code = "ControlRight" then
      { mv with duck := false } else mv
  let mv := if e.code = "ShiftLeft" || e.code = "ShiftRight" then
      { mv with slowWalk := false } else mv
  let mv := if !e.ctrlKey then { mv with duck := false } else mv
  let mv := if !e.shiftKey then { mv with slowWalk := false } else mv
  let mv := match KEYS e.code with
    | some .jump => mv
    | some k => setMoveFlag mv k false
    | none => mv
  { s with move := mv }

/-- The externally driven events that touch the session state: key down,
key up, and the pointer-lock flag changing.  The source installs both key
listeners regardless of the lock state (the keydown handler checks
`isLocked` itself), and changing `isLocked` runs no other state update. -/
inductive SessionEvent where
  | keyDown (e : KeyEvent)
  | keyUp (e : KeyEvent)
  | setLock (b : Bool)
deriving DecidableEq, Repr

/-- One session-state transition. -/
def sessionStep (s : SessionState) (ev : SessionEvent) : SessionState :=
  match ev with
  | .keyDown e => handleKeyDown s e
  | .keyUp e => handleKeyUp s e
  | .setLock b => { s with isLocked := b }

/-- The initial session state: unlocked, all flags false, vertical
velocity 0, grounded. -/
def initialSession : SessionState :=
  ⟨false, ⟨false, false, false, false, false, false, false⟩, 0, true⟩

/-- Running a list of session events from the initial state (defines
reachability of session states). -/
def runSession (evs : List SessionEvent) : SessionState :=
  evs.foldl sessionStep initialSession

/-! ### Per-frame simulation step (Player.tsx, the `useFrame` body) -/

/-- JS `Number(b)` on a boolean. -/
def b2q (b : Bool) : ℚ := if b then 1 else 0

/-- three.js `subVectors`. -/
def vsub (a b : Vec3) : Vec3 := ⟨a.x - b.x, a.y - b.y, a.z - b.z⟩

/-- three.js `multiplyScalar`. -/
def vscale (v : Vec3) (k : ℚ) : Vec3 := ⟨v.x * k, v.y * k, v.z * k⟩

/-- The horizontal movement delta of one frame: the source's
`direction.subVectors(frontVector, sideVector).normalize()
.multiplyScalar(currentSpeed * delta).applyEuler(camera.rotation)`. -/
def moveDelta (ops : Ops) (mv : MoveState) (currentSpeed delta : ℚ) (rotation : Vec3) :
    Vec3 :=
  let frontVector : Vec3 := ⟨0, 0, b2q mv.backward - b2q mv.forward⟩
  let sideVector : Vec3 := ⟨b2q mv.left - b2q mv.right, 0, 0⟩
  ops.applyEuler (vscale (ops.normalize (vsub frontVector sideVector)) (currentSpeed * delta))
    rotation

/-- The candidate horizontal position `(newX, newZ)` computed from the
current camera X/Z. -/
def candidateXZ (ops : Ops) (mv : MoveState) (delta : ℚ) (rotation : Vec3) (x z : ℚ) :
    ℚ × ℚ :=
  let currentSpeed := if mv.slowWalk then SLOW_WALK_SPEED else SPEED
  let direction := moveDelta ops mv currentSpeed delta rotation
  (x + direction.x, z + direction.z)

/-- The grounded duck/stand height blending applied to the integrated
height `y`: toward `DUCK_HEIGHT` while duck is held, else toward
`GROUND_HEIGHT`, moving at most `15 * delta` and clamped at the target. -/
def blendHeight (duck : Bool) (y delta : ℚ) : ℚ :=
  if duck then
    if y > DUCK_HEIGHT then max DUCK_HEIGHT (y - 15 * delta) else DUCK_HEIGHT
  else
    if y < GROUND_HEIGHT then min GROUND_HEIGHT (y + 15 * delta) else GROUND_HEIGHT

/-- Wall containment and obstacle rejection for the candidate `(newX, newZ)`:
at or beyond `WALL_RADIUS`, project back onto the wall circle at the
candidate's angle; otherwise commit unless `checkCollision` reports a hit
at the duck-state height. -/
def commitXZ (ops : Ops) (bounds : List CollisionBounds) (duck : Bool)
    (oldX oldZ newX newZ : ℚ) : ℚ × ℚ :=
  if ops.sqrt (newX * newX + newZ * newZ) ≥ WALL_RADIUS then
    let angle := ops.atan2 newZ newX
    (ops.cos angle * WALL_RADIUS, ops.sin angle * WALL_RADIUS)
  else
    let currentHeight := if duck then DUCK_HEIGHT else GROUND_HEIGHT
    if checkCollision ops bounds ⟨newX, currentHeight, newZ⟩ currentHeight then
      (oldX, oldZ)
    else
      (newX, newZ)

/-- The clamped normalized fog intensity for a given distance from center. -/
def fogIntensity (newDistance : ℚ) : ℚ :=
  max 0 (min 1 ((newDistance - FOG_START_DISTANCE) / (FOG_MAX_DISTANCE - FOG_START_DISTANCE)))

/-- The player kinematics refs plus the camera position. -/
structure PlayerState where
  pos : Vec3
  velocityY : ℚ
  isGrounded : Bool
deriving DecidableEq, Repr

/-- Everything one frame callback reads and writes: the player kinematics
and the scene fog parameters (the Scene always attaches a fog object, with
initial near 5 / far 30). -/
structure Frame where
  player : PlayerState
  fogNear : ℚ
  fogFar : ℚ
deriving DecidableEq, Repr

/-- One `useFrame` callback: a no-op while not locked; otherwise gravity
integration, ground snap and duck/stand blending, horizontal candidate
computation, wall containment / collision rejection, and the fog update
from the committed position. -/
def tick (ops : Ops) (bounds : List CollisionBounds) (isLocked : Bool) (mv : MoveState)
    (delta : ℚ) (rotation : Vec3) (fr : Frame) : Frame :=
  if !isLocked then fr
  else
    let st := fr.player
    let vY := st.velocityY + GRAVITY * delta
    let y0 := st.pos.y + vY * delta
    let isOnGround := decide (y0 ≤ GROUND_HEIGHT)
    let vY' := if isOnGround then (if vY < 0 then 0 else vY) else vY
    let y' := if isOnGround then blendHeight mv.duck y0 delta else y0
    let c := candidateXZ ops mv delta rotation st.pos.x st.pos.z
    let p := commitXZ ops bounds mv.duck st.pos.x st.pos.z c.1 c.2
    let newDistance := ops.sqrt (p.1 * p.1 + p.2 * p.2)
    let I := fogIntensity newDistance
    { player := ⟨⟨p.1, y', p.2⟩, vY', isOnGround⟩
    , fogNear := 5 + I * 15
    , fogFar := 30 + I * 40 }

/-- A whole frame input: lock flag, input snapshot, elapsed time, view
orientation. -/
structure TickInput where
  isLocked : Bool
  mv : MoveState
  delta : ℚ
  rotation : Vec3

/-- Running a whole sequence of frames. -/
def runTicks (ops : Ops) (bounds : List CollisionBounds) (inputs : List TickInput)
    (fr : Frame) : Frame :=
  inputs.foldl (fun f inp => tick ops bounds inp.isLocked inp.mv inp.delta inp.rotation f) fr

/-- The initial frame: camera at `[0, 2, 10]` (Scene camera position),
vertical velocity 0, grounded, fog `(5, 30)` (Scene fog args). -/
def initialFrame : Frame := ⟨⟨⟨0, 2, 10⟩, 0, true⟩, 5, 30⟩

/-- A concrete, fully computable choice of host operations, used to
instantiate the abstract `Ops` in witness statements.  Its `sqrt`
under-approximates on `[0, WALL_RADIUS^2]` and satisfies
`WALL_RADIUS^2 ≤ q → WALL_RADIUS ≤ sqrt q`, and its `cos`/`sin` satisfy
the Pythagorean identity. -/
def demoOps : Ops where
  cos := fun _ => 1
  sin := fun _ => 0
  atan2 := fun _ _ => 0
  sqrt := fun q => q / 75
  pi := 3
  normalize := fun v => v
  applyEuler := fun v _ => v

/-- Spec model: the single collision shape each scattered object
contributes, per the claimed type mapping (type 0 box, type 1 cylinder,
type 2 sphere, type 3 cone approximated as a cylinder with the cone's
base radius and height). -/
def specShapeFor (o : ScatteredObject) : CollisionBounds :=
  if o.type = 0 then
    ⟨.box, ⟨o.position.x, o.position.y + o.size * 1.5 / 2, o.position.z⟩,
      ⟨o.size, o.size * 1.5, o.size⟩⟩
  else if o.type = 1 then
    ⟨.cylinder, ⟨o.position.x, o.position.y + o.size, o.position.z⟩,
      ⟨o.size * 0.5, o.size * 2, 0⟩⟩
  else if o.type = 2 then
    ⟨.sphere, ⟨o.position.x, o.position.y, o.position.z⟩, ⟨o.size * 0.7, 0, 0⟩⟩
  else
    ⟨.cylinder, ⟨o.position.x, o.position.y + o.size, o.position.z⟩,
      ⟨o.size * 0.7, o.size * 2, 0⟩⟩

/-- The boundary-containment invariant: the committed horizontal position
lies on or inside the wall circle (stated on squared distances, so it does
not depend on the injected square root). -/
def WithinWall (fr : Frame) : Prop :=
  fr.player.pos.x ^ 2 + fr.player.pos.z ^ 2 ≤ WALL_RADIUS ^ 2

/-- An input snapshot with no key held. -/
def noInput : MoveState := ⟨false, false, false, false, false, false, false⟩

/-- An input snapshot with only duck held. -/
def duckInput : MoveState := ⟨false, false, false, false, false, true, false⟩

/-! ### Lemmas about the RNG stream -/

theorem specStreamState_succ (seed n : ℕ) :
    specStreamState seed (n + 1) = lcgNext (specStreamState seed n) := by
  rw [specStreamState, lcgNext]
  norm_num

theorem specStreamState_succ_lt (seed n : ℕ) : specStreamState seed (n + 1) < 2 ^ 32 := by
  rw [specStreamState]
  exact Nat.mod_lt _ (by norm_num)

theorem specRand_nonneg (seed n : ℕ) : 0 ≤ specRand seed n := by
  unfold specRand
  positivity

theorem specRand_lt_one (seed n : ℕ) : specRand seed n < 1 := by
  unfold specRand
  rw [div_lt_one (by norm_num)]
  exact_mod_cast specStreamState_succ_lt seed n

theorem scatterStep_spec (ops : Ops) (count : ℕ) (sr wr : ℚ) (i : ℕ) :
    scatterStep ops count sr wr i (specStreamState 12345 (7 * i)) =
      (specObject ops count sr wr i, specStreamState 12345 (7 * i + 7)) := by
  have h : ∀ n, lcgNext (specStreamState 12345 n) = specStreamState 12345 (n + 1) :=
    fun n => (specStreamState_succ 12345 n).symm
  simp only [scatterStep, specObject, specRand, lcgOut, h, Prod.mk.injEq,
    ScatteredObject.mk.injEq, Vec3.mk.injEq]
  norm_num [add_assoc]

theorem scatterAux_spec (ops : Ops) (count : ℕ) (sr wr : ℚ) :
    ∀ fuel i : ℕ,
      scatterAux ops count sr wr fuel i (specStreamState 12345 (7 * i)) =
        (List.range' i fuel).map (specObject ops count sr wr) := by
  intro fuel
  induction fuel with
  | zero => intro i; simp [scatterAux]
  | succ n ih =>
    intro i
    rw [List.range'_succ]
    simp only [scatterAux, scatterStep_spec, List.map_cons, List.cons.injEq]
    refine ⟨trivial, ?_⟩
    have h7 : 7 * i + 7 = 7 * (i + 1) := by ring
    rw [h7, ih (i + 1)]

theorem generate_eq_specGenerate (ops : Ops) (count : ℕ) (sr wr : ℚ) :
    generateScatteredObjects ops count sr wr = specGenerate ops count sr wr := by
  have h := scatterAux_spec ops count sr wr count 0
  rw [Nat.mul_zero] at h
  simpa [generateScatteredObjects, specGenerate, List.range_eq_range', specStreamState]
    using h

/-- Claim C1: `generate(count, startRadius, wallRadius)` returns exactly the
sequence of the specified algorithm — an LCG with state update
`state = (1664525 * state + 1013904223) mod 2^32`, normalized output
`state / 2^32`, fixed initial seed, drawn in the order angle-jitter,
distance, Y, type, size, rotation, color for each `i ∈ [0, count)` —
so any two invocations with identical parameters agree on every field.
The stated field ranges also hold: every stream output lies in `[0, 1)`,
the jitter is at most `0.5`, `y ∈ [0, 5)`, `type ∈ {0,1,2,3}`,
`size ∈ [1, 4)`, `colorIndex ∈ {0,…,5}`, rotation in `[0, 2π)` (for a
positive `π` constant), and the sampled distance lies in
`[startRadius, wallRadius - 5)` whenever that interval is nonempty
(`startRadius + 5 < wallRadius`). -/
theorem claim_C1 (ops : Ops) (count : ℕ) (startRadius wallRadius : ℚ) :
    generateScatteredObjects ops count startRadius wallRadius =
      specGenerate ops count startRadius wallRadius ∧
    (∀ count2 sr2 wr2, count = count2 → startRadius = sr2 → wallRadius = wr2 →
      generateScatteredObjects ops count startRadius wallRadius =
        generateScatteredObjects ops count2 sr2 wr2) ∧
    (∀ obj ∈ generateScatteredObjects ops count startRadius wallRadius,
      (0 ≤ obj.position.y ∧ obj.position.y < 5) ∧
      (0 ≤ obj.type ∧ obj.type < 4) ∧
      (1 ≤ obj.size ∧ obj.size < 4) ∧
      (0 ≤ obj.colorIndex ∧ obj.colorIndex < 6) ∧
      (0 < ops.pi → 0 ≤ obj.rotation ∧ obj.rotation < ops.pi * 2)) ∧
    (∀ n, 0 ≤ specRand 12345 n ∧ specRand 12345 n < 1) ∧
    (∀ n, specRand 12345 n * 0.5 ≤ 0.5) ∧
    (startRadius + 5 < wallRadius → ∀ n,
      startRadius ≤ startRadius + specRand 12345 n * (wallRadius - startRadius - 5) ∧
      startRadius + specRand 12345 n * (wallRadius - startRadius - 5) < wallRadius - 5) := by
  refine ⟨generate_eq_specGenerate ops count startRadius wallRadius, ?_, ?_, ?_, ?_, ?_⟩
  · rintro count2 sr2 wr2 rfl rfl rfl
    rfl
  · intro obj hmem
    rw [generate_eq_specGenerate] at hmem
    simp only [specGenerate, List.mem_map, List.mem_range] at hmem
    obtain ⟨i, _, rfl⟩ := hmem
    have h0 := specRand_nonneg 12345 (7 * i + 2)
    have h1 := specRand_lt_one 12345 (7 * i + 2)
    have h2 := specRand_nonneg 12345 (7 * i + 3)
    have h3 := specRand_lt_one 12345 (7 * i + 3)
    have h4 := specRand_nonneg 12345 (7 * i + 4)
    have h5 := specRand_lt_one 12345 (7 * i + 4)
    have h6 := specRand_nonneg 12345 (7 * i + 5)
    have h7 := specRand_lt_one 12345 (7 * i + 5)
    have h8 := specRand_nonneg 12345 (7 * i + 6)
    have h9 := specRand_lt_one 12345 (7 * i + 6)
    simp only [specObject]
    refine ⟨⟨by nlinarith, by nlinarith⟩, ⟨?_, ?_⟩, ⟨by nlinarith, by nlinarith⟩,
      ⟨?_, ?_⟩, fun hpi => ⟨by nlinarith, by nlinarith⟩⟩
    · exact Int.floor_nonneg.mpr (by nlinarith)
    · exact Int.floor_lt.mpr (by push_cast; nlinarith)
    · exact Int.floor_nonneg.mpr (by nlinarith)
    · exact Int.floor_lt.mpr (by push_cast; nlinarith)
  · exact fun n => ⟨specRand_nonneg 12345 n, specRand_lt_one 12345 n⟩
  · intro n
    have h0 := specRand_nonneg 12345 n
    have h1 := specRand_lt_one 12345 n
    nlinarith
  · intro hwr n
    have h0 := specRand_nonneg 12345 n
    have h1 := specRand_lt_one 12345 n
    constructor <;> nlinarith

/-- Witness for claim C1 at concrete inputs `count = 3`, `startRadius = 5`,
`wallRadius = 75`, discharging the determinism equalities, the membership
hypothesis of the per-field ranges, the positivity of `π`, and the
nonempty-interval hypothesis of the distance range. -/
theorem claim_C1_witness :
    generateScatteredObjects demoOps 3 5 75 = specGenerate demoOps 3 5 75 ∧
    generateScatteredObjects demoOps 3 5 75 = generateScatteredObjects demoOps 3 5 75 ∧
    0 ≤ (specObject demoOps 3 5 75 0).type ∧
    0 ≤ (specObject demoOps 3 5 75 0).rotation ∧
    (5 : ℚ) ≤ 5 + specRand 12345 0 * (75 - 5 - 5) ∧
    5 + specRand 12345 0 * (75 - 5 - 5) < 75 - 5 := by
  obtain ⟨h1, h2, h3, _, _, h6⟩ := claim_C1 demoOps 3 5 75
  have hmem : specObject demoOps 3 5 75 0 ∈ generateScatteredObjects demoOps 3 5 75 := by
    rw [h1]
    exact List.mem_map_of_mem _ (by decide)
  obtain ⟨hda, hdb⟩ := h6 (by norm_num) 0
  exact ⟨h1, h2 3 5 75 rfl rfl rfl, (h3 _ hmem).2.1.1,
    ((h3 _ hmem).2.2.2.2 (by norm_num [demoOps])).1, hda, hdb⟩

/-! ### Claim C4: shape count and mapping of the collision index -/

theorem scatterShapes_eq_specShapeFor (o : ScatteredObject)
    (h : 0 ≤ o.type ∧ o.type < 4) : scatterShapes o = [specShapeFor o] := by
  have h4 : o.type = 0 ∨ o.type = 1 ∨ o.type = 2 ∨ o.type = 3 := by omega
  rcases h4 with h4 | h4 | h4 | h4 <;> simp [scatterShapes, specShapeFor, h4]

/-- Claim C4: for every list of scattered objects (whose `type` fields are
in the generator's range `{0,1,2,3}`), the collision index is exactly the
18 column shapes (3 per column for 6 columns), the 4 statue shapes, and
one shape per scattered object following the claimed type mapping, for a
total of `18 + 4 + n` shapes. -/
theorem claim_C4 (objs : List ScatteredObject)
    (h : ∀ o ∈ objs, 0 ≤ o.type ∧ o.type < 4) :
    generateCollisionBounds objs =
      (columnPositions.flatMap columnShapes) ++ giantShapes ++ objs.map specShapeFor ∧
    (generateCollisionBounds objs).length = 18 + 4 + objs.length ∧
    columnPositions.length = 6 ∧
    (∀ p, (columnShapes p).length = 3) ∧
    giantShapes.length = 4 := by
  have hmap : objs.flatMap scatterShapes = objs.map specShapeFor := by
    induction objs with
    | nil => rfl
    | cons o rest ih =>
      rw [List.flatMap_cons, List.map_cons,
        scatterShapes_eq_specShapeFor o (h o (List.mem_cons_self o rest))]
      rw [ih fun o' ho' => h o' (List.mem_cons_of_mem o ho')]
      rfl
  have hcols : (columnPositions.flatMap columnShapes).length = 18 := rfl
  refine ⟨?_, ?_, rfl, fun p => rfl, rfl⟩
  · rw [generateCollisionBounds, hmap]
  · rw [generateCollisionBounds, hmap]
    simp only [List.length_append, hcols, List.length_map]
    simp [giantShapes]

/-- Witness for claim C4 at a concrete one-element object list, discharging
the type-range hypothesis. -/
theorem claim_C4_witness :
    generateCollisionBounds [⟨⟨0, 0, 0⟩, 2, 1, 0, 0, "obj-0"⟩] =
      (columnPositions.flatMap columnShapes) ++ giantShapes ++
        [⟨⟨0, 0, 0⟩, 2, 1, 0, 0, "obj-0"⟩].map specShapeFor ∧
    (generateCollisionBounds [⟨⟨0, 0, 0⟩, 2, 1, 0, 0, "obj-0"⟩]).length =
      18 + 4 + [(⟨⟨0, 0, 0⟩, 2, 1, 0, 0, "obj-0"⟩ : ScatteredObject)].length := by
  have h := claim_C4 [⟨⟨0, 0, 0⟩, 2, 1, 0, 0, "obj-0"⟩] (by decide)
  exact ⟨h.1, h.2.1⟩

/-! ### Claim C5: jump gating -/

/-- Claim C5: while locked, a plain `Space` key-down is a no-op on the whole
session state unless the player is Grounded with vertical velocity exactly
0, in which case it sets the vertical velocity to exactly `JUMP_FORCE` and
transitions to Airborne. -/
theorem claim_C5 (s : SessionState) (hL : s.isLocked = true) :
    (¬(s.isGrounded = true ∧ s.velocityY = 0) →
      sessionStep s (.keyDown ⟨"Space", false, false⟩) = s) ∧
    (s.isGrounded = true → s.velocityY = 0 →
      sessionStep s (.keyDown ⟨"Space", false, false⟩) =
        { s with velocityY := JUMP_FORCE, isGrounded := false }) := by
  obtain ⟨lk, mv0, v0, g0⟩ := s
  simp only at hL
  subst hL
  have key : sessionStep ⟨true, mv0, v0, g0⟩ (.keyDown ⟨"Space", false, false⟩) =
      if g0 ∧ v0 = 0 then ⟨true, mv0, JUMP_FORCE, false⟩ else ⟨true, mv0, v0, g0⟩ := by
    simp only [sessionStep, handleKeyDown, Bool.not_true, Bool.false_eq_true,
      if_false, KEYS, String.reduceEq, decide_False, Bool.or_self, Bool.or_false,
      Bool.false_or]
  constructor
  · intro hng
    rw [key, if_neg]
    intro hc
    exact hng ⟨hc.1, hc.2⟩
  · intro hg hv
    rw [key, if_pos ⟨hg, hv⟩]

/-- Witness for claim C5: both branches at concrete session states
(grounded at rest for the jump, airborne and nonzero-velocity for the
no-ops). -/
theorem claim_C5_witness :
    sessionStep ⟨true, ⟨false, false, false, false, false, false, false⟩, 0, true⟩
        (.keyDown ⟨"Space", false, false⟩) =
      ⟨true, ⟨false, false, false, false, false, false, false⟩, JUMP_FORCE, false⟩ ∧
    sessionStep ⟨true, ⟨false, false, false, false, false, false, false⟩, 3, false⟩
        (.keyDown ⟨"Space", false, false⟩) =
      ⟨true, ⟨false, false, false, false, false, false, false⟩, 3, false⟩ ∧
    sessionStep ⟨true, ⟨false, false, false, false, false, false, false⟩, 3, true⟩
        (.keyDown ⟨"Space", false, false⟩) =
      ⟨true, ⟨false, false, false, false, false, false, false⟩, 3, true⟩ := by
  refine ⟨(claim_C5 _ rfl).2 rfl rfl, (claim_C5 _ rfl).1 ?_, (claim_C5 _ rfl).1 ?_⟩
  · intro hc
    exact absurd hc.1 (by decide)
  · intro hc
    exact absurd hc.2 (by norm_num)

/-! ### Claims C2 and C10: the collision test guarding the move commit -/

/-- Claim C2: on an active tick whose candidate horizontal move is accepted
(inside the wall and no collision reported at the duck-state height `h`),
the committed X/Z equal the candidate X/Z, and the collision test evaluated
at the committed position with the duck-state height returns false. -/
theorem claim_C2 (ops : Ops) (bounds : List CollisionBounds) (mv : MoveState)
    (delta : ℚ) (rot : Vec3) (fr : Frame) (newX newZ h : ℚ)
    (hcand : candidateXZ ops mv delta rot fr.player.pos.x fr.player.pos.z = (newX, newZ))
    (hh : h = if mv.duck then DUCK_HEIGHT else GROUND_HEIGHT)
    (hW : ¬ WALL_RADIUS ≤ ops.sqrt (newX * newX + newZ * newZ))
    (hC : checkCollision ops bounds ⟨newX, h, newZ⟩ h = false) :
    (tick ops bounds true mv delta rot fr).player.pos.x = newX ∧
    (tick ops bounds true mv delta rot fr).player.pos.z = newZ ∧
    checkCollision ops bounds
      ⟨(tick ops bounds true mv delta rot fr).player.pos.x, h,
        (tick ops bounds true mv delta rot fr).player.pos.z⟩ h = false := by
  subst hh
  have hp : commitXZ ops bounds mv.duck fr.player.pos.x fr.player.pos.z newX newZ =
      (newX, newZ) := by
    rw [commitXZ, if_neg hW]
    simp only [hC, Bool.false_eq_true, if_false]
  have hx : (tick ops bounds true mv delta rot fr).player.pos.x = newX := by
    simp only [tick, Bool.not_true, Bool.false_eq_true, if_false, hcand, hp]
  have hz : (tick ops bounds true mv delta rot fr).player.pos.z = newZ := by
    simp only [tick, Bool.not_true, Bool.false_eq_true, if_false, hcand, hp]
  refine ⟨hx, hz, ?_⟩
  rw [hx, hz]
  exact hC

/-- Witness for claim C2: concrete accepted move at the initial camera
position with no obstacles, zero elapsed time, and concrete operations. -/
theorem claim_C2_witness :
    (tick demoOps [] true noInput 0 ⟨0, 0, 0⟩ initialFrame).player.pos.x = 0 ∧
    (tick demoOps [] true noInput 0 ⟨0, 0, 0⟩ initialFrame).player.pos.z = 10 ∧
    checkCollision demoOps []
      ⟨(tick demoOps [] true noInput 0 ⟨0, 0, 0⟩ initialFrame).player.pos.x, 2,
        (tick demoOps [] true noInput 0 ⟨0, 0, 0⟩ initialFrame).player.pos.z⟩ 2 = false :=
  claim_C2 demoOps [] noInput 0 ⟨0, 0, 0⟩ initialFrame 0 10 2
    (by norm_num [candidateXZ, moveDelta, vsub, vscale, b2q, demoOps, initialFrame,
      noInput, SPEED, SLOW_WALK_SPEED])
    (by norm_num [noInput, GROUND_HEIGHT])
    (by norm_num [demoOps, WALL_RADIUS])
    rfl

/-- Claim C10: on an active tick with the candidate inside the wall, the
commit decision is exactly the collision test at vertical position and
player height `h = DUCK_HEIGHT` if duck is held, `GROUND_HEIGHT` otherwise;
and the committed X/Z never depend on the camera's actual current height
(replacing the camera Y by any value leaves them unchanged). -/
theorem claim_C10 (ops : Ops) (bounds : List CollisionBounds) (mv : MoveState)
    (delta : ℚ) (rot : Vec3) (fr : Frame) (newX newZ h : ℚ)
    (hcand : candidateXZ ops mv delta rot fr.player.pos.x fr.player.pos.z = (newX, newZ))
    (hh : h = if mv.duck then DUCK_HEIGHT else GROUND_HEIGHT)
    (hW : ¬ WALL_RADIUS ≤ ops.sqrt (newX * newX + newZ * newZ)) :
    ((tick ops bounds true mv delta rot fr).player.pos.x,
      (tick ops bounds true mv delta rot fr).player.pos.z) =
      (if checkCollision ops bounds ⟨newX, h, newZ⟩ h = true then
        (fr.player.pos.x, fr.player.pos.z)
      else (newX, newZ)) ∧
    (∀ y' : ℚ,
      (tick ops bounds true mv delta rot
        { fr with player := { fr.player with pos := { fr.player.pos with y := y' } } }).player.pos.x =
        (tick ops bounds true mv delta rot fr).player.pos.x ∧
      (tick ops bounds true mv delta rot
        { fr with player := { fr.player with pos := { fr.player.pos with y := y' } } }).player.pos.z =
        (tick ops bounds true mv delta rot fr).player.pos.z) := by
  subst hh
  have hp : commitXZ ops bounds mv.duck fr.player.pos.x fr.player.pos.z newX newZ =
      if checkCollision ops bounds
          ⟨newX, if mv.duck then DUCK_HEIGHT else GROUND_HEIGHT, newZ⟩
          (if mv.duck then DUCK_HEIGHT else GROUND_HEIGHT) = true then
        (fr.player.pos.x, fr.player.pos.z)
      else (newX, newZ) := by
    rw [commitXZ, if_neg hW]
  constructor
  · simp only [tick, Bool.not_true, Bool.false_eq_true, if_false, hcand, hp]
  · intro y'
    constructor <;>
      simp only [tick, Bool.not_true, Bool.false_eq_true, if_false]

/-- Witness for claim C10 at a concrete state: no keys held, so the test
runs at standing height `GROUND_HEIGHT` and the move is accepted. -/
theorem claim_C10_witness :
    ((tick demoOps [] true noInput 0 ⟨0, 0, 0⟩ initialFrame).player.pos.x,
      (tick demoOps [] true noInput 0 ⟨0, 0, 0⟩ initialFrame).player.pos.z) =
      (if checkCollision demoOps [] ⟨0, 2, 10⟩ 2 = true then
        (initialFrame.player.pos.x, initialFrame.player.pos.z)
      else ((0 : ℚ), (10 : ℚ))) ∧
    (tick demoOps [] true noInput 0 ⟨0, 0, 0⟩
        { initialFrame with player :=
          { initialFrame.player with pos :=
            { initialFrame.player.pos with y := 50 } } }).player.pos.x =
      (tick demoOps [] true noInput 0 ⟨0, 0, 0⟩ initialFrame).player.pos.x := by
  have h := claim_C10 demoOps [] noInput 0 ⟨0, 0, 0⟩ initialFrame 0 10 2
    (by norm_num [candidateXZ, moveDelta, vsub, vscale, b2q, demoOps, initialFrame,
      noInput, SPEED, SLOW_WALK_SPEED])
    (by norm_num [noInput, GROUND_HEIGHT])
    (by norm_num [demoOps, WALL_RADIUS])
  exact ⟨h.1, (h.2 50).1⟩

/-! ### Claim C3: wall projection and boundary containment -/

theorem commitXZ_withinWall (ops : Ops) (bounds : List CollisionBounds) (duck : Bool)
    (oldX oldZ newX newZ : ℚ)
    (hPyth : ∀ a, ops.cos a ^ 2 + ops.sin a ^ 2 = 1)
    (hSqrt : ∀ q, WALL_RADIUS ^ 2 ≤ q → WALL_RADIUS ≤ ops.sqrt q)
    (hOld : oldX ^ 2 + oldZ ^ 2 ≤ WALL_RADIUS ^ 2) :
    (commitXZ ops bounds duck oldX oldZ newX newZ).1 ^ 2 +
      (commitXZ ops bounds duck oldX oldZ newX newZ).2 ^ 2 ≤ WALL_RADIUS ^ 2 := by
  have hq : ¬ ops.sqrt (newX * newX + newZ * newZ) ≥ WALL_RADIUS →
      newX * newX + newZ * newZ < WALL_RADIUS ^ 2 := by
    intro hn
    by_contra hc
    push_neg at hc
    exact hn (hSqrt _ hc)
  rw [commitXZ]
  by_cases h1 : ops.sqrt (newX * newX + newZ * newZ) ≥ WALL_RADIUS
  · rw [if_pos h1]
    have hp := hPyth (ops.atan2 newZ newX)
    simp only
    nlinarith [hp]
  · rw [if_neg h1]
    have hlt := hq h1
    rcases Bool.eq_false_or_eq_true (checkCollision ops bounds
        ⟨newX, if duck then DUCK_HEIGHT else GROUND_HEIGHT, newZ⟩
        (if duck then DUCK_HEIGHT else GROUND_HEIGHT)) with hc | hc
    · simp only [hc, eq_self_iff_true, if_true]
      simpa using hOld
    · simp only [hc, Bool.false_eq_true, if_false]
      nlinarith [hlt]

theorem tick_withinWall (ops : Ops) (bounds : List CollisionBounds)
    (hPyth : ∀ a, ops.cos a ^ 2 + ops.sin a ^ 2 = 1)
    (hSqrt : ∀ q, WALL_RADIUS ^ 2 ≤ q → WALL_RADIUS ≤ ops.sqrt q)
    (lk : Bool) (mv : MoveState) (delta : ℚ) (rot : Vec3) (fr : Frame)
    (h : WithinWall fr) : WithinWall (tick ops bounds lk mv delta rot fr) := by
  cases lk with
  | false => simpa [tick] using h
  | true =>
    have hc := commitXZ_withinWall ops bounds mv.duck fr.player.pos.x fr.player.pos.z
      (candidateXZ ops mv delta rot fr.player.pos.x fr.player.pos.z).1
      (candidateXZ ops mv delta rot fr.player.pos.x fr.player.pos.z).2 hPyth hSqrt h
    unfold WithinWall
    simpa [tick] using hc

theorem runTicks_withinWall (ops : Ops) (bounds : List CollisionBounds)
    (hPyth : ∀ a, ops.cos a ^ 2 + ops.sin a ^ 2 = 1)
    (hSqrt : ∀ q, WALL_RADIUS ^ 2 ≤ q → WALL_RADIUS ≤ ops.sqrt q) :
    ∀ (inputs : List TickInput) (fr : Frame), WithinWall fr →
      WithinWall (runTicks ops bounds inputs fr) := by
  intro inputs
  induction inputs with
  | nil => intro fr h; simpa [runTicks] using h
  | cons inp rest ih =>
    intro fr h
    have hstep := tick_withinWall ops bounds hPyth hSqrt inp.isLocked inp.mv inp.delta
      inp.rotation fr h
    have := ih (tick ops bounds inp.isLocked inp.mv inp.delta inp.rotation fr) hstep
    simpa [runTicks] using this

/-- Claim C3: when the candidate's distance from the origin reaches
`WALL_RADIUS`, the committed position is exactly
`(cos θ * WALL_RADIUS, sin θ * WALL_RADIUS)` for the candidate angle
`θ = atan2(newZ, newX)`; and (assuming the Pythagorean identity for the
injected `cos`/`sin` and that the injected `sqrt` reports at least
`WALL_RADIUS` on squares at least `WALL_RADIUS^2`) the squared-distance
bound `x² + z² ≤ WALL_RADIUS²` is preserved by every tick, active or not,
and hence holds after any sequence of ticks started inside the wall. -/
theorem claim_C3 (ops : Ops) (bounds : List CollisionBounds)
    (hPyth : ∀ a, ops.cos a ^ 2 + ops.sin a ^ 2 = 1)
    (hSqrt : ∀ q, WALL_RADIUS ^ 2 ≤ q → WALL_RADIUS ≤ ops.sqrt q) :
    (∀ (mv : MoveState) (delta : ℚ) (rot : Vec3) (fr : Frame) (newX newZ : ℚ),
      candidateXZ ops mv delta rot fr.player.pos.x fr.player.pos.z = (newX, newZ) →
      WALL_RADIUS ≤ ops.sqrt (newX * newX + newZ * newZ) →
      (tick ops bounds true mv delta rot fr).player.pos.x =
        ops.cos (ops.atan2 newZ newX) * WALL_RADIUS ∧
      (tick ops bounds true mv delta rot fr).player.pos.z =
        ops.sin (ops.atan2 newZ newX) * WALL_RADIUS) ∧
    (∀ (lk : Bool) (mv : MoveState) (delta : ℚ) (rot : Vec3) (fr : Frame),
      WithinWall fr → WithinWall (tick ops bounds lk mv delta rot fr)) ∧
    (∀ (inputs : List TickInput) (fr : Frame), WithinWall fr →
      WithinWall (runTicks ops bounds inputs fr)) := by
  refine ⟨?_, tick_withinWall ops bounds hPyth hSqrt,
    runTicks_withinWall ops bounds hPyth hSqrt⟩
  intro mv delta rot fr newX newZ hcand hW
  have hp : commitXZ ops bounds mv.duck fr.player.pos.x fr.player.pos.z newX newZ =
      (ops.cos (ops.atan2 newZ newX) * WALL_RADIUS,
       ops.sin (ops.atan2 newZ newX) * WALL_RADIUS) := by
    rw [commitXZ, if_pos hW]
  constructor <;> simp only [tick, Bool.not_true, Bool.false_eq_true, if_false, hcand, hp]

/-- Witness for claim C3: concrete operations satisfying both analytic
hypotheses, a concrete wall-projection instance, and the invariant after a
concrete two-tick run from the initial frame. -/
theorem claim_C3_witness :
    ((tick demoOps [] true noInput 0 ⟨0, 0, 0⟩
        ⟨⟨⟨0, 2, 80⟩, 0, true⟩, 5, 30⟩).player.pos.x =
      demoOps.cos (demoOps.atan2 80 0) * WALL_RADIUS) ∧
    WithinWall (runTicks demoOps []
      [⟨true, noInput, 1/60, ⟨0, 0, 0⟩⟩, ⟨false, noInput, 1/60, ⟨0, 0, 0⟩⟩]
      initialFrame) := by
  have h := claim_C3 demoOps []
    (by intro a; norm_num [demoOps])
    (by intro q hq; simp only [demoOps, WALL_RADIUS] at hq ⊢; linarith)
  refine ⟨?_, h.2.2 _ initialFrame (by norm_num [WithinWall, initialFrame, WALL_RADIUS])⟩
  exact (h.1 noInput 0 ⟨0, 0, 0⟩ ⟨⟨⟨0, 2, 80⟩, 0, true⟩, 5, 30⟩ 0 80
    (by norm_num [candidateXZ, moveDelta, vsub, vscale, b2q, demoOps, noInput,
      SPEED, SLOW_WALK_SPEED])
    (by norm_num [demoOps, WALL_RADIUS])).1

/-! ### Claims C6 and C7: duck/stand height blending -/

theorem tick_y (ops : Ops) (bounds : List CollisionBounds) (mv : MoveState)
    (delta : ℚ) (rot : Vec3) (fr : Frame) :
    (tick ops bounds true mv delta rot fr).player.pos.y =
      if fr.player.pos.y + (fr.player.velocityY + GRAVITY * delta) * delta ≤ GROUND_HEIGHT
      then blendHeight mv.duck
        (fr.player.pos.y + (fr.player.velocityY + GRAVITY * delta) * delta) delta
      else fr.player.pos.y + (fr.player.velocityY + GRAVITY * delta) * delta := by
  simp only [tick, Bool.not_true, Bool.false_eq_true, if_false, decide_eq_true_eq]

theorem tick_grounded_flag (ops : Ops) (bounds : List CollisionBounds) (mv : MoveState)
    (delta : ℚ) (rot : Vec3) (fr : Frame) :
    (tick ops bounds true mv delta rot fr).player.isGrounded =
      decide (fr.player.pos.y + (fr.player.velocityY + GRAVITY * delta) * delta ≤
        GROUND_HEIGHT) := by
  simp only [tick, Bool.not_true, Bool.false_eq_true, if_false]

/-- Claim C6: on an active tick, writing `y0` for the gravity-integrated
camera height, the grounded height blending moves toward `DUCK_HEIGHT`
while duck is held (monotone decrease at most `15·Δt`, never below the
target) and toward `GROUND_HEIGHT` when it is not (monotone increase at
most `15·Δt`, never above the target); while Airborne (`y0` above
`GROUND_HEIGHT`) no blending is applied. -/
theorem claim_C6 (ops : Ops) (bounds : List CollisionBounds) (mv : MoveState)
    (delta : ℚ) (rot : Vec3) (fr : Frame) (vY y0 : ℚ)
    (hdelta : 0 ≤ delta)
    (hvY : vY = fr.player.velocityY + GRAVITY * delta)
    (hy0 : y0 = fr.player.pos.y + vY * delta) :
    (y0 ≤ GROUND_HEIGHT → mv.duck = true → DUCK_HEIGHT < y0 →
      (tick ops bounds true mv delta rot fr).player.pos.y =
          max DUCK_HEIGHT (y0 - 15 * delta) ∧
        DUCK_HEIGHT ≤ (tick ops bounds true mv delta rot fr).player.pos.y ∧
        (tick ops bounds true mv delta rot fr).player.pos.y ≤ y0 ∧
        y0 - (tick ops bounds true mv delta rot fr).player.pos.y ≤ 15 * delta) ∧
    (y0 ≤ GROUND_HEIGHT → mv.duck = false → y0 < GROUND_HEIGHT →
      (tick ops bounds true mv delta rot fr).player.pos.y =
          min GROUND_HEIGHT (y0 + 15 * delta) ∧
        (tick ops bounds true mv delta rot fr).player.pos.y ≤ GROUND_HEIGHT ∧
        y0 ≤ (tick ops bounds true mv delta rot fr).player.pos.y ∧
        (tick ops bounds true mv delta rot fr).player.pos.y - y0 ≤ 15 * delta) ∧
    (¬ y0 ≤ GROUND_HEIGHT →
      (tick ops bounds true mv delta rot fr).player.pos.y = y0) := by
  subst hvY
  have hy : (tick ops bounds true mv delta rot fr).player.pos.y =
      if y0 ≤ GROUND_HEIGHT then blendHeight mv.duck y0 delta else y0 := by
    rw [tick_y, ← hy0]
  refine ⟨?_, ?_, ?_⟩
  · intro hg hduck hlt
    rw [hy, if_pos hg, blendHeight, if_pos hduck, if_pos hlt]
    refine ⟨rfl, le_max_left _ _, max_le hlt.le (by linarith), ?_⟩
    have := le_max_right DUCK_HEIGHT (y0 - 15 * delta)
    linarith
  · intro hg hduck hlt
    rw [hy, if_pos hg, blendHeight, hduck, if_neg (by simp), if_pos hlt]
    refine ⟨rfl, min_le_left _ _, le_min hlt.le (by linarith), ?_⟩
    have := min_le_right GROUND_HEIGHT (y0 + 15 * delta)
    linarith
  · intro hg
    rw [hy, if_neg hg]

/-- Witness for claim C6: both blending branches and the airborne branch at
concrete states (ducking from standing height, standing up from duck
height, and a high airborne camera), with `Δt = 1/60`. -/
theorem claim_C6_witness :
    ((tick demoOps [] true duckInput (1/60) ⟨0, 0, 0⟩ initialFrame).player.pos.y =
        max DUCK_HEIGHT (initialFrame.player.pos.y +
          (initialFrame.player.velocityY + GRAVITY * (1/60)) * (1/60) - 15 * (1/60)) ∧
      DUCK_HEIGHT ≤ (tick demoOps [] true duckInput (1/60) ⟨0, 0, 0⟩
        initialFrame).player.pos.y) ∧
    ((tick demoOps [] true noInput (1/60) ⟨0, 0, 0⟩
        ⟨⟨⟨0, 1, 10⟩, 0, true⟩, 5, 30⟩).player.pos.y ≤ GROUND_HEIGHT) ∧
    ((tick demoOps [] true noInput (1/60) ⟨0, 0, 0⟩
        ⟨⟨⟨0, 50, 10⟩, 0, false⟩, 5, 30⟩).player.pos.y =
      50 + (0 + GRAVITY * (1/60)) * (1/60)) := by
  have h1 := (claim_C6 demoOps [] duckInput (1/60) ⟨0, 0, 0⟩ initialFrame _ _
    (by norm_num) rfl rfl).1
    (by norm_num [initialFrame, GRAVITY, GROUND_HEIGHT])
    (by norm_num [duckInput])
    (by norm_num [initialFrame, GRAVITY, DUCK_HEIGHT])
  have h2 := (claim_C6 demoOps [] noInput (1/60) ⟨0, 0, 0⟩
    ⟨⟨⟨0, 1, 10⟩, 0, true⟩, 5, 30⟩ _ _ (by norm_num) rfl rfl).2.1
    (by norm_num [GRAVITY, GROUND_HEIGHT])
    (by norm_num [noInput])
    (by norm_num [GRAVITY, GROUND_HEIGHT])
  have h3 := (claim_C6 demoOps [] noInput (1/60) ⟨0, 0, 0⟩
    ⟨⟨⟨0, 50, 10⟩, 0, false⟩, 5, 30⟩ _ _ (by norm_num) rfl rfl).2.2
    (by norm_num [GRAVITY, GROUND_HEIGHT])
  exact ⟨⟨h1.1, h1.2.1⟩, h2.2.1, h3⟩

/-- Claim C7 as stated is false on the code: from the reachable ducked rest
state (camera height exactly `DUCK_HEIGHT`, reached here by one ducked tick
of `Δt = 1/15` from the initial frame), one active tick with duck released
and `Δt = 1` ends Grounded with camera height `-4 < DUCK_HEIGHT`: gravity
integrates the height to `-19` and the stand-up blend raises it by only
`15·Δt`. -/
theorem claim_C7_counterexample :
    (runTicks demoOps []
        [⟨true, duckInput, 1/15, ⟨0, 0, 0⟩⟩, ⟨true, noInput, 1, ⟨0, 0, 0⟩⟩]
        initialFrame).player.isGrounded = true ∧
    (runTicks demoOps []
        [⟨true, duckInput, 1/15, ⟨0, 0, 0⟩⟩, ⟨true, noInput, 1, ⟨0, 0, 0⟩⟩]
        initialFrame).player.pos.y < DUCK_HEIGHT := by
  have h1 : tick demoOps [] true duckInput (1/15) ⟨0, 0, 0⟩ initialFrame =
      ⟨⟨⟨0, 1, 10⟩, 0, true⟩, 5, 30⟩ := by
    norm_num [tick, blendHeight, candidateXZ, commitXZ, checkCollision, fogIntensity,
      moveDelta, vsub, vscale, b2q, demoOps, initialFrame, duckInput, SPEED,
      SLOW_WALK_SPEED, GRAVITY, GROUND_HEIGHT, DUCK_HEIGHT, WALL_RADIUS,
      FOG_START_DISTANCE, FOG_MAX_DISTANCE, max_def, min_def]
  have h2 : tick demoOps [] true noInput 1 ⟨0, 0, 0⟩ ⟨⟨⟨0, 1, 10⟩, 0, true⟩, 5, 30⟩ =
      ⟨⟨⟨0, -4, 10⟩, 0, true⟩, 5, 30⟩ := by
    norm_num [tick, blendHeight, candidateXZ, commitXZ, checkCollision, fogIntensity,
      moveDelta, vsub, vscale, b2q, demoOps, noInput, SPEED,
      SLOW_WALK_SPEED, GRAVITY, GROUND_HEIGHT, DUCK_HEIGHT, WALL_RADIUS,
      FOG_START_DISTANCE, FOG_MAX_DISTANCE, max_def, min_def]
  have hr : runTicks demoOps []
      [⟨true, duckInput, 1/15, ⟨0, 0, 0⟩⟩, ⟨true, noInput, 1, ⟨0, 0, 0⟩⟩]
      initialFrame = ⟨⟨⟨0, -4, 10⟩, 0, true⟩, 5, 30⟩ := by
    simp only [runTicks, List.foldl_cons, List.foldl_nil, h1, h2]
  rw [hr]
  norm_num [DUCK_HEIGHT]

/-- Claim C7, amended: at the end of an active tick that lands in the
Grounded state, the camera height lies in `[DUCK_HEIGHT, GROUND_HEIGHT]`
provided the gravity-integrated height `y0` satisfies
`DUCK_HEIGHT ≤ y0 + 15·Δt` (the stand-up blend can reach the duck height
within this tick) — true for ordinary frame durations, but violable for
large `Δt`, as the counterexample shows.  The upper bound needs no extra
hypothesis beyond `0 ≤ Δt`. -/
theorem claim_C7_amended (ops : Ops) (bounds : List CollisionBounds) (mv : MoveState)
    (delta : ℚ) (rot : Vec3) (fr : Frame) (vY y0 : ℚ)
    (hdelta : 0 ≤ delta)
    (hvY : vY = fr.player.velocityY + GRAVITY * delta)
    (hy0 : y0 = fr.player.pos.y + vY * delta)
    (hG : y0 ≤ GROUND_HEIGHT)
    (hLow : DUCK_HEIGHT ≤ y0 + 15 * delta) :
    DUCK_HEIGHT ≤ (tick ops bounds true mv delta rot fr).player.pos.y ∧
    (tick ops bounds true mv delta rot fr).player.pos.y ≤ GROUND_HEIGHT ∧
    (tick ops bounds true mv delta rot fr).player.isGrounded = true := by
  subst hvY
  have hy : (tick ops bounds true mv delta rot fr).player.pos.y =
      if y0 ≤ GROUND_HEIGHT then blendHeight mv.duck y0 delta else y0 := by
    rw [tick_y, ← hy0]
  have hg : (tick ops bounds true mv delta rot fr).player.isGrounded = true := by
    rw [tick_grounded_flag, ← hy0]
    simp [hG]
  rw [hy, if_pos hG]
  refine ⟨?_, ?_, hg⟩
  · rw [blendHeight]
    rcases Bool.eq_false_or_eq_true mv.duck with hd | hd
    · rw [if_pos hd]
      split_ifs with h
      · exact le_max_left _ _
      · exact le_refl _
    · rw [if_neg (by simp [hd])]
      split_ifs with h
      · exact le_min (by norm_num [DUCK_HEIGHT, GROUND_HEIGHT]) hLow
      · norm_num [DUCK_HEIGHT, GROUND_HEIGHT]
  · rw [blendHeight]
    rcases Bool.eq_false_or_eq_true mv.duck with hd | hd
    · rw [if_pos hd]
      split_ifs with h
      · exact max_le (by norm_num [DUCK_HEIGHT, GROUND_HEIGHT]) (by linarith)
      · norm_num [DUCK_HEIGHT, GROUND_HEIGHT]
    · rw [if_neg (by simp [hd])]
      split_ifs with h
      · exact min_le_left _ _
      · exact le_refl _

/-- Witness for the amended claim C7 at the initial frame with
`Δt = 1/60` and no input: the resulting grounded height lies in
`[DUCK_HEIGHT, GROUND_HEIGHT]`. -/
theorem claim_C7_amended_witness :
    DUCK_HEIGHT ≤ (tick demoOps [] true noInput (1/60) ⟨0, 0, 0⟩
      initialFrame).player.pos.y ∧
    (tick demoOps [] true noInput (1/60) ⟨0, 0, 0⟩ initialFrame).player.pos.y ≤
      GROUND_HEIGHT ∧
    (tick demoOps [] true noInput (1/60) ⟨0, 0, 0⟩ initialFrame).player.isGrounded =
      true :=
  claim_C7_amended demoOps [] noInput (1/60) ⟨0, 0, 0⟩ initialFrame _ _
    (by norm_num) rfl rfl
    (by norm_num [initialFrame, GRAVITY, GROUND_HEIGHT])
    (by norm_num [initialFrame, GRAVITY, DUCK_HEIGHT])

/-! ### Claim C8: MoveState on pointer unlock -/

/-- Claim C8 as stated is false on the code: no code path resets the
`MoveState` when the pointer unlocks.  Concretely, locking, pressing `W`
(setting `forward`), and then unlocking reaches an inactive state whose
`forward` flag is still true. -/
theorem claim_C8_counterexample :
    (runSession [.setLock true, .keyDown ⟨"KeyW", false, false⟩, .setLock false]).isLocked
      = false ∧
    (runSession [.setLock true, .keyDown ⟨"KeyW", false, false⟩, .setLock false]).move.forward
      = true := by
  decide

/-- Claim C8, amended: becoming inactive performs no reset at all — the
pointer-lock transition leaves the whole `MoveState` (and the vertical
velocity and grounded flag) unchanged, so flags set while locked persist
into the inactive state; individual flags are cleared only by key-up
events, which are processed even while unlocked. -/
theorem claim_C8_amended (s : SessionState) (b : Bool) (e : KeyEvent)
    (hk : KEYS e.code = some MoveKey.forward) :
    (sessionStep s (.setLock b)).move = s.move ∧
    (sessionStep s (.setLock b)).velocityY = s.velocityY ∧
    (sessionStep s (.setLock b)).isGrounded = s.isGrounded ∧
    (handleKeyUp s e).move.forward = false := by
  refine ⟨rfl, rfl, rfl, ?_⟩
  simp only [handleKeyUp, hk, setMoveFlag]

/-- Witness for the amended claim C8: unlocking after pressing `W` keeps
`forward` set, and a `W` key-up clears it even while unlocked. -/
theorem claim_C8_amended_witness :
    (sessionStep ⟨true, ⟨true, false, false, false, false, false, false⟩, 0, true⟩
      (.setLock false)).move = ⟨true, false, false, false, false, false, false⟩ ∧
    (handleKeyUp ⟨false, ⟨true, false, false, false, false, false, false⟩, 0, true⟩
      ⟨"KeyW", false, false⟩).move.forward = false := by
  have h1 := claim_C8_amended
    ⟨true, ⟨true, false, false, false, false, false, false⟩, 0, true⟩
    false ⟨"KeyW", false, false⟩ (by decide)
  have h2 := claim_C8_amended
    ⟨false, ⟨true, false, false, false, false, false, false⟩, 0, true⟩
    false ⟨"KeyW", false, false⟩ (by decide)
  exact ⟨h1.1, h2.2.2.2⟩

/-! ### Claim C9: fog derivation and monotonicity -/

/-- Claim C9: on an active tick, the fog outputs are exactly
`near = 5 + I·15` and `far = 30 + I·40` for
`I = clamp((d - FOG_START_DISTANCE) / (FOG_MAX_DISTANCE - FOG_START_DISTANCE), 0, 1)`
evaluated at the committed position's reported distance from the origin;
`I`, near and far are non-decreasing in the distance, with `I` exactly 0
at or below `FOG_START_DISTANCE` and exactly 1 at or beyond
`FOG_MAX_DISTANCE`. -/
theorem claim_C9 (ops : Ops) (bounds : List CollisionBounds) (mv : MoveState)
    (delta : ℚ) (rot : Vec3) (fr : Frame) :
    ((tick ops bounds true mv delta rot fr).fogNear =
        5 + fogIntensity (ops.sqrt
          ((tick ops bounds true mv delta rot fr).player.pos.x *
            (tick ops bounds true mv delta rot fr).player.pos.x +
           (tick ops bounds true mv delta rot fr).player.pos.z *
            (tick ops bounds true mv delta rot fr).player.pos.z)) * 15 ∧
      (tick ops bounds true mv delta rot fr).fogFar =
        30 + fogIntensity (ops.sqrt
          ((tick ops bounds true mv delta rot fr).player.pos.x *
            (tick ops bounds true mv delta rot fr).player.pos.x +
           (tick ops bounds true mv delta rot fr).player.pos.z *
            (tick ops bounds true mv delta rot fr).player.pos.z)) * 40) ∧
    (∀ d1 d2 : ℚ, d1 ≤ d2 →
      fogIntensity d1 ≤ fogIntensity d2 ∧
      5 + fogIntensity d1 * 15 ≤ 5 + fogIntensity d2 * 15 ∧
      30 + fogIntensity d1 * 40 ≤ 30 + fogIntensity d2 * 40) ∧
    (∀ d : ℚ, d ≤ FOG_START_DISTANCE → fogIntensity d = 0) ∧
    (∀ d : ℚ, FOG_MAX_DISTANCE ≤ d → fogIntensity d = 1) := by
  have hmono : ∀ d1 d2 : ℚ, d1 ≤ d2 → fogIntensity d1 ≤ fogIntensity d2 := by
    intro d1 d2 hle
    unfold fogIntensity
    have hc : (0 : ℚ) < FOG_MAX_DISTANCE - FOG_START_DISTANCE := by
      norm_num [FOG_MAX_DISTANCE, FOG_START_DISTANCE]
    have hd : (d1 - FOG_START_DISTANCE) / (FOG_MAX_DISTANCE - FOG_START_DISTANCE) ≤
        (d2 - FOG_START_DISTANCE) / (FOG_MAX_DISTANCE - FOG_START_DISTANCE) := by
      gcongr
    exact max_le_max (le_refl 0) (min_le_min (le_refl 1) hd)
  refine ⟨?_, ?_, ?_, ?_⟩
  · constructor <;> simp only [tick, Bool.not_true, Bool.false_eq_true, if_false]
  · intro d1 d2 hle
    have h := hmono d1 d2 hle
    exact ⟨h, by linarith, by linarith⟩
  · intro d hd
    unfold fogIntensity
    have h1 : (d - FOG_START_DISTANCE) / (FOG_MAX_DISTANCE - FOG_START_DISTANCE) ≤ 0 := by
      apply div_nonpos_iff.mpr
      right
      refine ⟨by linarith, by norm_num [FOG_START_DISTANCE, FOG_MAX_DISTANCE]⟩
    rw [min_eq_right (h1.trans (by norm_num)), max_eq_left h1]
  · intro d hd
    unfold fogIntensity
    have h1 : (1 : ℚ) ≤ (d - FOG_START_DISTANCE) / (FOG_MAX_DISTANCE - FOG_START_DISTANCE) := by
      rw [le_div_iff₀ (by norm_num [FOG_START_DISTANCE, FOG_MAX_DISTANCE])]
      norm_num [FOG_START_DISTANCE, FOG_MAX_DISTANCE] at hd ⊢
      linarith
    rw [min_eq_left h1, max_eq_right (by norm_num : (0:ℚ) ≤ 1)]

/-- Witness for claim C9: monotonicity and both clamp values at concrete
distances, and the fog equation on a concrete tick. -/
theorem claim_C9_witness :
    (tick demoOps [] true noInput 0 ⟨0, 0, 0⟩ initialFrame).fogNear =
      5 + fogIntensity (demoOps.sqrt
        ((tick demoOps [] true noInput 0 ⟨0, 0, 0⟩ initialFrame).player.pos.x *
          (tick demoOps [] true noInput 0 ⟨0, 0, 0⟩ initialFrame).player.pos.x +
         (tick demoOps [] true noInput 0 ⟨0, 0, 0⟩ initialFrame).player.pos.z *
          (tick demoOps [] true noInput 0 ⟨0, 0, 0⟩ initialFrame).player.pos.z)) * 15 ∧
    fogIntensity 30 ≤ fogIntensity 40 ∧
    fogIntensity 20 = 0 ∧
    fogIntensity 120 = 1 := by
  have h := claim_C9 demoOps [] noInput 0 ⟨0, 0, 0⟩ initialFrame
  exact ⟨h.1.1, (h.2.1 30 40 (by norm_num)).1, h.2.2.1 20 (by norm_num [FOG_START_DISTANCE]),
    h.2.2.2 120 (by norm_num [FOG_MAX_DISTANCE])⟩

end VirtuGood
